import Mathlib

/-!
Shallow embedding of the document chunking / RAG ingestion / retrieval /
citation-extraction core of the repository, together with theorems that
settle the spec's claims about it.

Conventions of the embedding:
* Python strings are modelled as `List Char` (character-level operations:
  slicing, `strip`, `rfind`, splitting) or as Lean `String` where only
  whole-string concatenation is involved.
* Python machine behaviour that raises is modelled with `Except String`:
  a raised exception is an `Except.error` carrying a description.
* `re`-based matching is modelled with explicit scanners that implement the
  concrete regular expressions of the source (for the character classes the
  source uses, `\d` and `\s` are modelled over their ASCII ranges; the
  documents and answers the claims quantify over are modelled at that level).
* External collaborators (embedding provider, LLM, similarity scoring of the
  vector index) are parameters: arbitrary Lean functions.
-/

set_option maxRecDepth 100000
set_option maxHeartbeats 2000000

namespace RagSpec

/-! ## Python string primitives -/

/-- Python `str` whitespace for `strip()` / `\s` (ASCII range). -/
def pyIsSpace (c : Char) : Bool :=
  c == ' ' || c == '\t' || c == '\n' || c == '\r' || c == '\x0b' || c == '\x0c'

/-- Python `s.strip()`. -/
def pyStrip (l : List Char) : List Char :=
  ((l.dropWhile pyIsSpace).reverse.dropWhile pyIsSpace).reverse

/-- Python `s.split('\n')` (note `"".split('\n') == [""]`). -/
def pySplitNl : List Char → List (List Char)
  | [] => [[]]
  | c :: rest =>
    let r := pySplitNl rest
    if c == '\n' then [] :: r
    else
      match r with
      | h :: t => (c :: h) :: t
      | [] => [[c]]

/-- Python `'\n'.join(lines)`. -/
def joinNl (lines : List (List Char)) : List Char :=
  List.intercalate ['\n'] lines

/-- Python slice `s[a:b]` for `0 ≤ a`, with the usual clamping of `b`. -/
def pySlice (l : List Char) (a b : Nat) : List Char :=
  (l.take b).drop a

/-- Does `sub` occur in `t` starting at index `i`? -/
def matchesAt (t sub : List Char) (i : Nat) : Bool :=
  (t.drop i).take sub.length == sub

/-- Scan downward from index `i` to `lo` for the highest occurrence of `sub`. -/
def pyRfindFrom (t sub : List Char) (lo : Nat) : Nat → Int
  | 0 => if matchesAt t sub 0 then (0 : Int) else -1
  | i + 1 =>
    if matchesAt t sub (i + 1) then ((i + 1 : Nat) : Int)
    else if i + 1 ≤ lo then -1
    else pyRfindFrom t sub lo i

/-- Python `s.rfind(sub, lo, hi)`: the highest index `i ≥ lo` such that `sub`
is contained in `s[lo:hi]` at `i`; `-1` when there is none. -/
def pyRfind (t sub : List Char) (lo hi : Nat) : Int :=
  let hi' := min hi t.length
  if lo + sub.length ≤ hi' then pyRfindFrom t sub lo (hi' - sub.length) else -1

/-! ## Chunking constants (rag_ingest_service.py lines 10-14) -/

def CHUNK_SIZE_CHARS : Nat := 1500
def OVERLAP_CHARS : Nat := 200
def MIN_CHUNK_SIZE : Nat := 1200
def MAX_CHUNK_SIZE : Nat := 1800

/-! ## Heading detection (HEADING_PATTERNS, applied to `line.strip()`)

Each pattern of the source is an anchored regex over a line that contains no
`'\n'` (lines come from `text.split('\n')`), so `.` matches every remaining
character and each matcher below is the exact condition under which the
regex matches. -/

/-- After a recognised prefix, `\s+(.+)$` matches iff at least two characters
remain and the first is whitespace (take one whitespace for `\s+`; everything
after it is nonempty and matched by `.+` since the line has no newline). -/
def wsThenRest : List Char → Bool
  | c :: _ :: _ => pyIsSpace c
  | _ => false

/-- `^(SECTION:|Section:)\s+(.+)$` -/
def isSectionHeading (l : List Char) : Bool :=
  (l.take 8 == "SECTION:".data || l.take 8 == "Section:".data) && wsThenRest (l.drop 8)

/-- `^(#{1,6})\s+(.+)$` : a run of 1-6 `#` then whitespace then a nonempty rest.
A run of more than 6 `#` cannot match (the character after any shorter prefix
of the run is `#`, not whitespace). -/
def isMarkdownHeading (l : List Char) : Bool :=
  let k := (l.takeWhile (· == '#')).length
  decide (1 ≤ k) && decide (k ≤ 6) && wsThenRest (l.drop k)

/-- The tail of `\d+(\.\d+)*` after the first digit run: alternating `.`-digit
runs, consuming the whole candidate segment. Structural recursion on fuel
(each step consumes at least two characters, so fuel equal to the segment
length is always sufficient and the `0` case is unreachable from
`digitsDotsForm`). -/
def dotDigitsTail : Nat → List Char → Bool
  | _, [] => true
  | 0, _ => false
  | fuel + 1, '.' :: rest =>
    let d := rest.takeWhile Char.isDigit
    !d.isEmpty && dotDigitsTail fuel (rest.drop d.length)
  | _ + 1, _ => false

/-- Does the whole segment match `\d+(\.\d+)*`? -/
def digitsDotsForm (l : List Char) : Bool :=
  let d := l.takeWhile Char.isDigit
  !d.isEmpty && dotDigitsTail l.length (l.drop d.length)

/-- `^(\d+(?:\.\d+)*)\s+(.+)$` : the captured group contains no whitespace, so
it must end exactly at the first whitespace character of the line. -/
def isNumberedHeading (l : List Char) : Bool :=
  let f := (l.takeWhile (fun c => !pyIsSpace c)).length
  decide (f + 2 ≤ l.length) && digitsDotsForm (l.take f)

/-- `^([IVXLCDM]+)\.\s+(.+)$` : a maximal roman-letter run, then `.`, then
whitespace and a nonempty rest. -/
def isRomanHeading (l : List Char) : Bool :=
  let k := (l.takeWhile (fun c => "IVXLCDM".data.contains c)).length
  decide (1 ≤ k) && (l.drop k).take 1 == ".".data && wsThenRest (l.drop (k + 1))

/-- Does `line.strip()` match any of the four `HEADING_PATTERNS`? -/
def isHeadingLine (line : List Char) : Bool :=
  let s := pyStrip line
  isSectionHeading s || isMarkdownHeading s || isNumberedHeading s || isRomanHeading s

/-! ## `RagIngestService._split_into_sections` (lines 134-180) -/

/-- The accumulation loop over `text.split('\n')`. `title` is
`current_section_title`, `buf` is `current_section_lines`. -/
def splitSectionsLoop :
    List (List Char) → List Char → List (List Char) →
    List (List Char × List Char) → List (List Char × List Char)
  | [], title, buf, acc =>
    let st := pyStrip (joinNl buf)
    if !buf.isEmpty && !st.isEmpty then acc ++ [(title, st)] else acc
  | line :: rest, title, buf, acc =>
    if isHeadingLine line then
      let st := pyStrip (joinNl buf)
      let acc' := if !buf.isEmpty && !st.isEmpty then acc ++ [(title, st)] else acc
      splitSectionsLoop rest (pyStrip line) [] acc'
    else
      splitSectionsLoop rest title (buf ++ [line]) acc

/-- `_split_into_sections`: returns `(section_title, section_text)` pairs; when
no section was collected, the whole text as one `("Content", text)` section. -/
def splitIntoSections (text : List Char) : List (List Char × List Char) :=
  let s := splitSectionsLoop (pySplitNl text) ("Introduction".data) [] []
  if s.isEmpty then [(("Content").data, text)] else s

/-! ## `RagIngestService._chunk_section` (lines 182-232)

The hard-split loop is embedded faithfully, including the progress check
`if start <= chunks[-1] if chunks else 0:` (line 229), which Python parses as
`(start <= chunks[-1]) if chunks else 0`: whenever `chunks` is nonempty the
comparison `int <= str` raises `TypeError`. Raising is modelled as
`Except.error pyTypeErrorMsg`. The loop index is driven by fuel (any fuel at
least the text length is enough, since `start` advances by more than 1000
characters per surviving iteration); exhausted fuel is a distinct error value
so that it can never be mistaken for the `TypeError` or for a success. -/

def pyTypeErrorMsg : String :=
  "TypeError: '<=' not supported between instances of 'int' and 'str'"

def fuelErrorMsg : String := "FuelExhausted"

/-- One slice boundary: `end = start + CHUNK_SIZE_CHARS`, then, when this is
not the last chunk, prefer the last sentence end (`. `, `! `, `? `) in the
final 20% of the window (`int(CHUNK_SIZE_CHARS * 0.2) == 300`), else the last
space there. -/
def chunkEnd (t : List Char) (start : Nat) : Nat :=
  let end0 := start + CHUNK_SIZE_CHARS
  if end0 < t.length then
    let searchStart := end0 - 300
    let sentenceEnd :=
      max (max (pyRfind t (". ".data) searchStart end0)
               (pyRfind t ("! ".data) searchStart end0))
          (pyRfind t ("? ".data) searchStart end0)
    if sentenceEnd > (searchStart : Int) then (sentenceEnd + 1).toNat
    else
      let spacePos := pyRfind t (" ".data) searchStart end0
      if spacePos > (searchStart : Int) then spacePos.toNat
      else end0
  else end0

/-- The `while start < len(text)` loop of `_chunk_section`. -/
def chunkSectionGo (t : List Char) : Nat → Nat → List (List Char) → Except String (List (List Char))
  | 0, _, _ => .error fuelErrorMsg
  | fuel + 1, start, chunks =>
    if start < t.length then
      let endp := chunkEnd t start
      let chunk := pyStrip (pySlice t start endp)
      let chunks' := if chunk.isEmpty then chunks else chunks ++ [chunk]
      let start' := endp - OVERLAP_CHARS
      -- line 229: `if start <= chunks[-1] if chunks else 0:` — with a nonempty
      -- chunk list this evaluates `start <= chunks[-1]`, an `int <= str`
      -- comparison, and raises TypeError; with an empty list the condition is
      -- the falsy `0` and the loop continues with `start = end - OVERLAP_CHARS`.
      if chunks'.isEmpty then chunkSectionGo t fuel start' chunks'
      else .error pyTypeErrorMsg
    else .ok chunks

/-- `_chunk_section`: a section no longer than `MAX_CHUNK_SIZE` is returned as
a single chunk; otherwise the hard-split loop runs. -/
def chunkSection (t : List Char) : Except String (List (List Char)) :=
  if t.length ≤ MAX_CHUNK_SIZE then .ok [t]
  else chunkSectionGo t (t.length + 1) 0 []

/-! ## `RagIngestService.ingest` (lines 44-132)

`metadata` enters `ingest` only through the three resolved fields extracted on
lines 66-68 (`symbol`, `title`, `sourceUrl or source_url`); the embedding
models the metadata as that resolved record. The embedding provider is an
arbitrary function `embed`; each chunk produces exactly one `embed` call
(line 92), so the number of chunks is the number of embedding calls. -/

structure Metadata where
  symbol : Option String
  title : Option String
  sourceUrl : Option String

structure ChunkData where
  sectionIdx : Nat
  chunkIdx : Nat
  sectionTitle : List Char
  text : List Char

/-- Lines 70-84: split into sections, chunk each section, and record
`(section_idx, chunk_idx, section_title, text)` per chunk. A `TypeError`
raised by `_chunk_section` propagates. -/
def ingestChunks (text : List Char) : Except String (List ChunkData) :=
  ((splitIntoSections text).enum.mapM (fun se =>
      (chunkSection se.2.2).map (fun cs =>
        cs.enum.map (fun ce =>
          ChunkData.mk se.1 ce.1 se.2.1 ce.2)))).map List.flatten

/-- The payload dict built on lines 98-106 (camelCase keys). -/
structure Payload where
  text : List Char
  source : String
  documentId : String
  symbol : Option String
  sectionName : List Char
  title : Option String
  sourceUrl : Option String

/-- An indexed point: `{"id": ..., "vector": ..., "payload": ...}` with the
deterministic id of line 95. -/
structure Point (α : Type u) where
  id : String
  vector : α
  payload : Payload

def mkPoint (docId source : String) (m : Metadata) (embed : List Char → α)
    (cd : ChunkData) : Point α :=
  { id := docId ++ ":" ++ toString cd.sectionIdx ++ ":" ++ toString cd.chunkIdx
    vector := embed cd.text
    payload :=
      { text := cd.text
        source := source
        documentId := docId
        symbol := m.symbol
        sectionName := cd.sectionTitle
        title := m.title
        sourceUrl := m.sourceUrl } }

/-- Lines 88-112: the list of points handed to `vector_store.upsert`. -/
def ingestPoints (docId source : String) (text : List Char) (m : Metadata)
    (embed : List Char → α) : Except String (List (Point α)) :=
  (ingestChunks text).map (List.map (mkPoint docId source m embed))

/-- The dict returned by `ingest` (lines 127-132). -/
structure IngestResult where
  chunksUpserted : Nat
  documentId : String
  collection : String
  embeddingModel : String

/-- The keys of the dict literal `ingest` returns (lines 127-132). -/
def ingestResultDictKeys : List String :=
  ["chunksUpserted", "documentId", "collection", "embeddingModel"]

/-- `ingest` end to end: the result dict together with the points that were
upserted to the vector store. -/
def ragIngest (docId source : String) (text : List Char) (m : Metadata)
    (embed : List Char → α) (collectionName embeddingModel : String) :
    Except String (IngestResult × List (Point α)) :=
  (ingestPoints docId source text m embed).map (fun ps =>
    ({ chunksUpserted := ps.length
       documentId := docId
       collection := collectionName
       embeddingModel := embeddingModel }, ps))

/-! ## The vector index: upsert-by-id (qdrant_client.py lines 128-149)

The index holds points keyed by id; `client.upsert` replaces a point whose id
already exists and inserts it otherwise. -/

abbrev Store (α : Type u) : Type u := List (Point α)

/-- Upsert one point: replace the stored point(s) with the same id, else
append. -/
def upsertPoint (st : Store α) (p : Point α) : Store α :=
  if st.any (fun q => q.id == p.id) then
    st.map (fun q => if q.id == p.id then p else q)
  else st ++ [p]

/-- Upsert a batch in order. -/
def upsertAll (st : Store α) (ps : List (Point α)) : Store α :=
  ps.foldl upsertPoint st

/-- The point stored under id `k`. -/
def lookupStore (st : Store α) (k : String) : Option (Point α) :=
  st.find? (fun q => q.id == k)

/-- The last point of the batch carrying id `k` (the one whose value survives
the batch upsert). -/
def findLastPoint : List (Point α) → String → Option (Point α)
  | [], _ => none
  | p :: rest, k =>
    match findLastPoint rest k with
    | some q => some q
    | none => if p.id == k then some p else none

theorem lookup_upsertPoint (st : Store α) (p : Point α) (k : String) :
    lookupStore (upsertPoint st p) k =
      if p.id = k then some p else lookupStore st k := by
  unfold upsertPoint lookupStore
  by_cases hany : st.any (fun q => q.id == p.id) = true
  · rw [if_pos hany, List.find?_map]
    by_cases hk : p.id = k
    · subst hk
      have hpred : ((fun q : Point α => q.id == p.id) ∘
          fun q => if q.id == p.id then p else q) = fun q : Point α => q.id == p.id := by
        funext q
        by_cases h : q.id = p.id <;> simp [Function.comp, h]
      rw [hpred]
      have hex : ∃ x ∈ st, (x.id == p.id) = true := by
        simpa using List.any_eq_true.mp hany
      have hsome : (st.find? (fun q => q.id == p.id)).isSome = true :=
        List.find?_isSome.mpr hex
      obtain ⟨q₀, hq₀⟩ := Option.isSome_iff_exists.mp hsome
      have hq₀id : (q₀.id == p.id) = true := by
        have h0 := List.find?_some hq₀
        simpa using h0
      rw [hq₀]
      simp [Option.map, hq₀id, if_pos rfl]
    · have hpred : ((fun q : Point α => q.id == k) ∘
          fun q => if q.id == p.id then p else q) = fun q : Point α => q.id == k := by
        funext q
        by_cases h : q.id = p.id <;> simp [Function.comp, h]
      rw [hpred, if_neg hk]
      cases hfind : st.find? (fun q => q.id == k) with
      | none => simp
      | some q₀ =>
        have hq₀k : q₀.id = k := by simpa using List.find?_some hfind
        have : (q₀.id == p.id) = false := by
          simp only [beq_eq_false_iff_ne, ne_eq, hq₀k]
          exact fun h => hk h.symm
        simp [Option.map, this]
  · rw [if_neg hany, List.find?_append]
    by_cases hk : p.id = k
    · subst hk
      have hnone : st.find? (fun q => q.id == p.id) = none := by
        rw [List.find?_eq_none]
        intro x hx
        intro hxp
        exact hany (List.any_eq_true.mpr ⟨x, hx, hxp⟩)
      rw [hnone, if_pos rfl]
      simp [List.find?]
    · have hpk : (p.id == k) = false := by simpa using hk
      rw [if_neg hk]
      simp only [List.find?, hpk, cond_false]
      cases st.find? (fun q => q.id == k) <;> simp


theorem lookup_upsertAll (ps : List (Point α)) :
    ∀ (st : Store α) (k : String),
      lookupStore (upsertAll st ps) k =
        match findLastPoint ps k with
        | some q => some q
        | none => lookupStore st k := by
  induction ps with
  | nil => intro st k; simp [upsertAll, findLastPoint]
  | cons p rest ih =>
    intro st k
    show lookupStore (upsertAll (upsertPoint st p) rest) k = _
    rw [ih]
    simp only [findLastPoint]
    cases findLastPoint rest k with
    | some q => simp
    | none =>
      simp only [lookup_upsertPoint]
      by_cases hk : p.id = k
      · simp [hk]
      · have : (p.id == k) = false := by simp [hk]
        simp [hk, this]

/-- Re-upserting the same batch leaves the index unchanged (pointwise on every
id): upsert-by-id replaces, it never duplicates. -/
theorem upsertAll_idem (st : Store α) (ps : List (Point α)) (k : String) :
    lookupStore (upsertAll (upsertAll st ps) ps) k = lookupStore (upsertAll st ps) k := by
  rw [lookup_upsertAll, lookup_upsertAll]
  cases findLastPoint ps k <;> simp

/-! ## Claims C1-C5 -/

/-- Every `.ok` outcome of the hard-split loop (entered with an empty chunk
accumulator) carries the empty chunk list: an iteration that appends a
nonempty chunk immediately evaluates the `int <= str` progress check of line
229 and raises, so the loop can only run to completion while it has produced
no chunk at all. -/
theorem chunkSectionGo_ok_nil (t : List Char) :
    ∀ (fuel start : Nat) (cs : List (List Char)),
      chunkSectionGo t fuel start [] = .ok cs → cs = [] := by
  intro fuel
  induction fuel with
  | zero =>
    intro start cs h
    simp [chunkSectionGo] at h
  | succ n ih =>
    intro start cs h
    rw [chunkSectionGo] at h
    by_cases hs : start < t.length
    · rw [if_pos hs] at h
      by_cases hempty : (pyStrip (pySlice t start (chunkEnd t start))).isEmpty
      · simp only [hempty, if_true, List.isEmpty_nil] at h
        exact ih _ _ h
      · simp only [hempty, if_false, Bool.false_eq_true, List.nil_append] at h
        simp at h
    · rw [if_neg hs] at h
      have := h
      simp only [Except.ok.injEq] at this
      exact this.symm

/-- C1: ingestion is deterministic and idempotent: the chunk ids produced for
`(document_id, text)` do not depend on the metadata, the source tag, or the
embedding provider (so re-ingesting yields the identical ordered id list and
the identical chunk count); every id has the `"{documentId}:{sectionIdx}:{chunkIdx}"`
shape; and upserting the same point batch a second time leaves the index
unchanged on every id — upsert-by-id replaces rather than duplicates. -/
theorem ingest_deterministic_idempotent {α β : Type} (d src₁ src₂ : String)
    (t : List Char) (m₁ m₂ : Metadata) (e₁ : List Char → α) (e₂ : List Char → β)
    (ps : List (Point α)) (st : Store α)
    (h : ingestPoints d src₁ t m₁ e₁ = .ok ps) :
    (∃ ps₂ : List (Point β), ingestPoints d src₂ t m₂ e₂ = .ok ps₂
        ∧ ps₂.map Point.id = ps.map Point.id ∧ ps₂.length = ps.length)
    ∧ (∀ p ∈ ps, ∃ s c : Nat, p.id = d ++ ":" ++ toString s ++ ":" ++ toString c)
    ∧ (∀ k, lookupStore (upsertAll (upsertAll st ps) ps) k
        = lookupStore (upsertAll st ps) k) := by
  unfold ingestPoints at h
  cases hc : ingestChunks t with
  | error e =>
    rw [hc] at h
    simp [Except.map] at h
  | ok cds =>
    rw [hc] at h
    simp only [Except.map, Except.ok.injEq] at h
    refine ⟨⟨cds.map (mkPoint d src₂ m₂ e₂), ?_, ?_, ?_⟩, ?_, ?_⟩
    · simp [ingestPoints, hc, Except.map]
    · rw [← h]
      simp only [List.map_map]
      rfl
    · rw [← h]
      simp
    · intro p hp
      rw [← h] at hp
      obtain ⟨cd, _, rfl⟩ := List.mem_map.mp hp
      exact ⟨cd.sectionIdx, cd.chunkIdx, rfl⟩
    · intro k
      exact upsertAll_idem st ps k

def c1meta : Metadata := Metadata.mk none none none

def c1points : List (Point Nat) :=
  [mkPoint ("doc") ("analysis_report") c1meta (fun _ => 0)
    (ChunkData.mk 0 0 ("Introduction".data) ("hello".data))]

theorem ingest_deterministic_idempotent_witness :
    (∀ p ∈ c1points, ∃ s c : Nat, p.id = "doc" ++ ":" ++ toString s ++ ":" ++ toString c)
    ∧ (∀ k, lookupStore (upsertAll (upsertAll ([] : Store Nat) c1points) c1points) k
        = lookupStore (upsertAll [] c1points) k) := by
  have h := ingest_deterministic_idempotent ("doc") ("analysis_report") ("news")
    ("hello".data) c1meta (Metadata.mk (some ("T")) none none)
    (fun _ => (0 : Nat)) (fun _ => (1 : Nat)) c1points [] (by rfl)
  exact ⟨h.2.1, h.2.2⟩

/-- C2: the claim says ingesting empty/whitespace-only text short-circuits with
`chunksUpserted = 0`, status `"ok"`, and no embedding or index calls. The code
has no such short-circuit: ingesting `""` falls back to the single section
`("Content", "")`, which `_chunk_section` returns as the single chunk `""`, so
one embedding call is made and one point is upserted; `chunksUpserted` is `1`,
and the returned dict carries the key `"embeddingModel"`, not `"status"`. -/
theorem ingest_empty_text_no_short_circuit :
    ingestChunks [] = .ok [ChunkData.mk 0 0 ("Content".data) []]
    ∧ (ragIngest ("doc-empty") ("analysis_report") [] c1meta
        (fun _ => (0 : Nat)) ("stock_documents") ("all-MiniLM-L6-v2")).map
          (fun r => (r.1.chunksUpserted, r.2.length)) = .ok (1, 1)
    ∧ ¬ ("status" ∈ ingestResultDictKeys) := by
  refine ⟨by rfl, by rfl, by decide⟩

/-- Helpers for reasoning about a first hard-split iteration without deep
kernel evaluation. -/
theorem mem_dropWhile_of_not (p : Char → Bool) (l : List Char) (c : Char)
    (hc : c ∈ l) (h : p c = false) : c ∈ l.dropWhile p := by
  induction l with
  | nil => simp at hc
  | cons a l ih =>
    rw [List.dropWhile_cons]
    by_cases ha : p a = true
    · rw [if_pos ha]
      rcases List.mem_cons.mp hc with rfl | hmem
      · rw [ha] at h; simp at h
      · exact ih hmem
    · rw [if_neg ha]
      exact hc

/-- A string containing a non-whitespace character does not strip to empty. -/
theorem pyStrip_isEmpty_false (l : List Char) (c : Char)
    (hc : c ∈ l) (hns : pyIsSpace c = false) : (pyStrip l).isEmpty = false := by
  unfold pyStrip
  have h1 : c ∈ l.dropWhile pyIsSpace := mem_dropWhile_of_not _ _ _ hc hns
  have h2 : c ∈ (l.dropWhile pyIsSpace).reverse := List.mem_reverse.mpr h1
  have h3 : c ∈ (l.dropWhile pyIsSpace).reverse.dropWhile pyIsSpace :=
    mem_dropWhile_of_not _ _ _ h2 hns
  have h4 : c ∈ ((l.dropWhile pyIsSpace).reverse.dropWhile pyIsSpace).reverse :=
    List.mem_reverse.mpr h3
  cases hE : ((l.dropWhile pyIsSpace).reverse.dropWhile pyIsSpace).reverse with
  | nil => rw [hE] at h4; simp at h4
  | cons a t => rfl

theorem mem_take_of_head (t : List Char) (c : Char) (h : t.head? = some c)
    (e : Nat) (he : 0 < e) : c ∈ t.take e := by
  cases t with
  | nil => simp at h
  | cons a l =>
    cases e with
    | zero => omega
    | succ n =>
      simp only [List.head?_cons, Option.some.injEq] at h
      subst h
      simp [List.take_succ_cons]

/-- Every branch of the chunk-boundary computation yields a positive end. -/
theorem chunkEnd_pos (t : List Char) (start : Nat) : 0 < chunkEnd t start := by
  have hc : CHUNK_SIZE_CHARS = 1500 := rfl
  unfold chunkEnd
  dsimp only
  split
  · split
    · omega
    · split
      · omega
      · omega
  · omega

/-- Any section longer than `MAX_CHUNK_SIZE` whose first window strips to a
nonempty chunk makes `_chunk_section` raise `TypeError` on its very first
iteration: the chunk is appended, and the line-229 progress check then
evaluates `start <= chunks[-1]`, an `int <= str` comparison. -/
theorem chunkSection_first_iteration_raises (t : List Char)
    (hlen : MAX_CHUNK_SIZE < t.length)
    (hne : (pyStrip (pySlice t 0 (chunkEnd t 0))).isEmpty = false) :
    chunkSection t = .error pyTypeErrorMsg := by
  unfold chunkSection
  rw [if_neg (by omega)]
  rw [chunkSectionGo]
  rw [if_pos (show 0 < t.length by omega)]
  simp only [hne, Bool.false_eq_true, if_false, List.nil_append, List.isEmpty_cons]

/-- A 1801-character section: longer than `MAX_CHUNK_SIZE`, so the hard-split
loop runs; its first window ends at a sentence boundary and strips to a
nonempty chunk (it starts with the non-whitespace character `a`). -/
def c3text : List Char :=
  List.replicate 1490 'a' ++ ("? a! a. a".data) ++ List.replicate 302 'a'

theorem c3text_length : c3text.length = 1801 := by
  have h9 : ("? a! a. a".data).length = 9 := by rfl
  simp [c3text, h9]

theorem c3text_first_chunk_nonempty :
    (pyStrip (pySlice c3text 0 (chunkEnd c3text 0))).isEmpty = false := by
  have hhead : c3text.head? = some 'a' := by rfl
  have hmem : 'a' ∈ pySlice c3text 0 (chunkEnd c3text 0) := by
    unfold pySlice
    rw [List.drop_zero]
    exact mem_take_of_head _ _ hhead _ (chunkEnd_pos c3text 0)
  exact pyStrip_isEmpty_false _ 'a' hmem (by decide)

/-- C3: the claim says the chunker is total and never raises. It is not: for
any section longer than `MAX_CHUNK_SIZE` whose first window strips to a
nonempty chunk, the progress check `start <= chunks[-1] if chunks else 0`
(line 229) compares the `int` window start with the `str` last chunk and
raises `TypeError` on the very first iteration. -/
theorem chunker_raises_type_error :
    c3text.length = 1801 ∧ MAX_CHUNK_SIZE < c3text.length
    ∧ chunkSection c3text = .error pyTypeErrorMsg := by
  refine ⟨c3text_length, by rw [c3text_length]; decide, ?_⟩
  exact chunkSection_first_iteration_raises c3text
    (by rw [c3text_length]; decide) c3text_first_chunk_nonempty

def c4text : List Char := List.replicate 1600 'a'

/-- C4 counterexample: a 1600-character single-section text is returned whole
as one chunk of length 1600 > `CHUNK_SIZE_CHARS` (1500) although it is not the
product of a hard split (the hard-split loop is never entered for sections of
length at most `MAX_CHUNK_SIZE`), refuting the claimed `chunk_size` bound. -/
theorem chunk_size_claim_counterexample :
    chunkSection c4text = .ok [c4text]
    ∧ c4text.length = 1600 ∧ CHUNK_SIZE_CHARS < c4text.length := by
  have hl : c4text.length = 1600 := by simp [c4text]
  refine ⟨?_, hl, by rw [hl]; decide⟩
  unfold chunkSection
  rw [if_pos (by rw [hl]; decide)]

/-- C4 (amended): every chunk `_chunk_section` successfully returns has length
at most `MAX_CHUNK_SIZE` (1800) — the code's actual bound is the 1200-1800
target band's upper end, not `CHUNK_SIZE_CHARS` (1500): sections of length at
most 1800 are returned whole, and a run of the hard-split loop that produces
any chunk raises instead of returning. -/
theorem chunk_length_le_max (t : List Char) (cs : List (List Char))
    (h : chunkSection t = .ok cs) : ∀ c ∈ cs, c.length ≤ MAX_CHUNK_SIZE := by
  unfold chunkSection at h
  by_cases hlen : t.length ≤ MAX_CHUNK_SIZE
  · rw [if_pos hlen] at h
    simp only [Except.ok.injEq] at h
    subst h
    intro c hc
    simp only [List.mem_singleton] at hc
    subst hc
    exact hlen
  · rw [if_neg hlen] at h
    have : cs = [] := chunkSectionGo_ok_nil t (t.length + 1) 0 cs h
    subst this
    intro c hc
    simp at hc

theorem chunk_length_le_max_witness :
    chunkSection ("hi".data) = .ok [("hi".data)]
    ∧ ∀ c ∈ [("hi".data)], c.length ≤ MAX_CHUNK_SIZE :=
  ⟨by rfl, chunk_length_le_max ("hi".data) ([("hi".data)]) (by rfl)⟩

/-- The spec's hard-split scenario document: 3000 characters. -/
def c5text : List Char :=
  List.replicate 1490 'a' ++ ("? a! a. a".data) ++ List.replicate 1501 'a'

/-- C5: the claim describes the overlap between consecutive hard-split chunks
(the spec's scenario: a 3000-character document split into 3 overlapping
chunks). The code can never produce two consecutive hard-split chunks: the
iteration that appends the first nonempty chunk raises `TypeError` at the
line-229 progress check, so on the spec's own scenario input chunking raises
instead of returning 3 overlapping chunks. -/
theorem c5text_length : c5text.length = 3000 := by
  have h9 : ("? a! a. a".data).length = 9 := by rfl
  simp [c5text, h9]

theorem hard_split_overlap_unreachable :
    c5text.length = 3000 ∧ chunkSection c5text = .error pyTypeErrorMsg := by
  refine ⟨c5text_length, ?_⟩
  refine chunkSection_first_iteration_raises c5text (by rw [c5text_length]; decide) ?_
  have hhead : c5text.head? = some 'a' := by rfl
  have hmem : 'a' ∈ pySlice c5text 0 (chunkEnd c5text 0) := by
    unfold pySlice
    rw [List.drop_zero]
    exact mem_take_of_head _ _ hhead _ (chunkEnd_pos c5text 0)
  exact pyStrip_isEmpty_false _ 'a' hmem (by decide)

/-! ## The ingest HTTP route (api/routes/rag.py lines 97-153) against the
service it calls

The route forwards `chunk_size` / `chunk_overlap` keywords to
`RagIngestService.ingest` and reads `result["status"]`; the service's `ingest`
declares neither the keywords nor the key. A Python keyword call binds only
when every passed keyword is a declared parameter (there is no `**kwargs`),
otherwise it raises `TypeError`; a missing dict key raises `KeyError`. Both
are caught by the route's `except Exception` and surfaced as HTTP 500. -/

/-- The parameters `RagIngestService.ingest` declares (lines 44-50). -/
def ingestServiceParams : List String := ["document_id", "source", "text", "metadata"]

/-- The keyword arguments the route passes (lines 127-134). -/
def routeIngestKwargs : List String :=
  ["document_id", "source", "text", "metadata", "chunk_size", "chunk_overlap"]

/-- Does the route's call to the service bind? -/
def routeCallBinds : Bool := routeIngestKwargs.all (fun k => ingestServiceParams.contains k)

/-- The fields of the route's `IngestResponse`, each read from the service
result dict (lines 141-146). -/
def ingestResponseFields : List String :=
  ["chunksUpserted", "documentId", "collection", "status"]

/-- HTTP status of the ingest route: 200 only if the call binds and every
response field exists in the service's result dict; any raised `TypeError` or
`KeyError` is caught on line 148 and becomes a 500. -/
def routeIngestHttpStatus : Nat :=
  if routeCallBinds && ingestResponseFields.all (fun k => ingestResultDictKeys.contains k)
  then 200 else 500

/-- C6: the claim says the exposed ingestion operation accepts the optional
`chunk_size`/`chunk_overlap` parameters and returns exactly
`{chunksUpserted, documentId, collection, status}`. The route does declare the
parameters, but the service's `ingest` does not accept them — the call raises
`TypeError` on every request — and the service result carries
`embeddingModel`, never `status`, so no request can produce the claimed
response shape: the route always answers 500. -/
theorem ingest_route_contract_broken :
    routeCallBinds = false
    ∧ ("chunk_size" ∈ routeIngestKwargs ∧ ¬ ("chunk_size" ∈ ingestServiceParams))
    ∧ ("status" ∈ ingestResponseFields ∧ ¬ ("status" ∈ ingestResultDictKeys))
    ∧ routeIngestHttpStatus = 500 := by
  refine ⟨by decide, ⟨by decide, by decide⟩, ⟨by decide, by decide⟩, by decide⟩

/-! ## `QAService.answer_question` (qa_service.py lines 33-150) -/

/-- Python `x or d` on an optional string (`None` and `""` are falsy). -/
def pyOrStr (o : Option String) (d : String) : String :=
  match o with
  | some s => if s.isEmpty then d else s
  | none => d

/-- Python truthiness of an optional string. -/
def pyTruthyStr (o : Option String) : Bool :=
  match o with
  | some s => !s.isEmpty
  | none => false

/-- A raw hit dict as returned by `vector_store.search` (all payload-derived
fields may be absent; `score` is a float, modelled as a rational). -/
structure QAHit where
  documentId : Option String
  source : Option String
  sourceUrl : Option String
  title : Option String
  sectionName : Option String
  symbol : Option String
  chunkId : Option String
  score : Option ℚ
  text : Option String

/-- The normalized source object of lines 93-104 (with the internal full
`text` field still present). -/
structure SourceObj where
  documentId : String
  source : String
  sourceUrl : Option String
  title : String
  sectionName : String
  symbol : String
  chunkId : String
  score : ℚ
  textPreview : String
  text : String

/-- The response form with the internal `text` field stripped (lines 142-145). -/
structure SourceOut where
  documentId : String
  source : String
  sourceUrl : Option String
  title : String
  sectionName : String
  symbol : String
  chunkId : String
  score : ℚ
  textPreview : String

def stripTextField (s : SourceObj) : SourceOut :=
  { documentId := s.documentId
    source := s.source
    sourceUrl := s.sourceUrl
    title := s.title
    sectionName := s.sectionName
    symbol := s.symbol
    chunkId := s.chunkId
    score := s.score
    textPreview := s.textPreview }

/-- Lines 89-105: normalize a hit with safe fallbacks and the request's own
filter values; `textPreview` is the first 350 characters when the text is
longer than 350. -/
def normalizeHit (documentId source symbol : Option String) (hit : QAHit) : SourceObj :=
  let text := String.mk (pyStrip ((pyOrStr hit.text ("")).data))
  { documentId := pyOrStr hit.documentId (pyOrStr documentId (""))
    source := pyOrStr hit.source (pyOrStr source (""))
    sourceUrl := if pyTruthyStr hit.sourceUrl then hit.sourceUrl else none
    title := pyOrStr hit.title ("Unknown")
    sectionName := pyOrStr hit.sectionName ("")
    symbol := pyOrStr hit.symbol (pyOrStr symbol (""))
    chunkId := pyOrStr hit.chunkId ("")
    score := hit.score.getD 0
    textPreview := if 350 < text.length then text.take 350 else text
    text := text }

/-- Lines 62-67: the filters dict with `None` values dropped. -/
def qaFilters (documentId source symbol : Option String) : List (String × String) :=
  ([("document_id", documentId), ("source", source), ("symbol", symbol)].filterMap
    (fun kv => kv.2.map (fun v => (kv.1, v))))

/-- Line 75: `filters=filters or None`. -/
def qaFiltersArg (documentId source symbol : Option String) :
    Option (List (String × String)) :=
  let fs := qaFilters documentId source symbol
  if fs.isEmpty then none else some fs

def hitScore (h : QAHit) : ℚ := h.score.getD 0

/-- Lines 83-87: `sorted(..., key=score, reverse=True)` — stable descending. -/
def sortHitsByScoreDesc (l : List QAHit) : List QAHit :=
  l.mergeSort (fun a b => decide (hitScore b ≤ hitScore a))

/-- The three prompt lines contributed by one retrieved source (lines
123-129, 1-indexed). -/
def qaSourceLines (i : Nat) (s : SourceObj) : List String :=
  let title := pyOrStr (some s.title) ("Unknown")
  let sect := pyOrStr (some s.sectionName) ("N/A")
  let url := pyOrStr s.sourceUrl ("null")
  ["[" ++ toString i ++ "] " ++ title ++ " - " ++ sect ++ " (" ++ url ++ ")",
   pyOrStr (some s.text) (pyOrStr (some s.textPreview) ("")),
   ""]

/-- The `prompt_parts` list of lines 108-133. -/
def qaPromptParts (baseContext : Option String) (sources : List SourceObj)
    (question : String) : List String :=
  (["Bạn là trợ lý phân tích tài chính.",
    "Yêu cầu: trả lời ngắn gọn, bằng tiếng Việt.",
    "Chỉ sử dụng thông tin trong ngữ cảnh cung cấp, không bịa nguồn.",
    "Nếu không đủ thông tin, hãy nói rõ.",
    ""]
  ++ (if pyTruthyStr baseContext then
        ["Ngữ cảnh cơ bản:", pyOrStr baseContext (""), ""] else [])
  ++ (if sources.isEmpty then [] else
        ["Ngữ cảnh từ tài liệu:"]
        ++ (sources.enum.map (fun p => qaSourceLines (p.1 + 1) p.2)).flatten)
  ++ ["Câu hỏi: " ++ question, "", "Trả lời:"])

structure QAResult where
  answer : String
  sources : List SourceOut

/-- `answer_question`: search (with any raised error degraded to an empty hit
list, lines 70-80), re-sort and truncate, normalize, build the prompt, call
the LLM, and return the answer with the text-stripped source objects. -/
def answerQuestion
    (vs : String → Nat → Option (List (String × String)) → Except String (List QAHit))
    (llm : String → String) (question : String) (baseContext : Option String)
    (topK : Nat) (documentId source symbol : Option String) : QAResult :=
  let sourcesRaw : List QAHit :=
    match vs question topK (qaFiltersArg documentId source symbol) with
    | .ok l => l
    | .error _ => []
  let sources :=
    ((sortHitsByScoreDesc sourcesRaw).take topK).map (normalizeHit documentId source symbol)
  let prompt := String.intercalate "\n" (qaPromptParts baseContext sources question)
  { answer := llm prompt, sources := sources.map stripTextField }

/-- C7: graceful degradation: when the vector-index search raises, the error
is swallowed, the retrieved set is empty, the LLM is still called on the
prompt built from the supplied `base_context` alone, and the result is the
generated text with an empty sources list. -/
theorem qa_degrades_on_index_failure
    (vs : String → Nat → Option (List (String × String)) → Except String (List QAHit))
    (llm : String → String) (question bc : String) (topK : Nat)
    (documentId source symbol : Option String) (e : String)
    (h : vs question topK (qaFiltersArg documentId source symbol) = .error e) :
    (answerQuestion vs llm question (some bc) topK documentId source symbol).sources = []
    ∧ (answerQuestion vs llm question (some bc) topK documentId source symbol).answer
        = llm (String.intercalate "\n" (qaPromptParts (some bc) [] question))
    ∧ (bc.isEmpty = false → bc ∈ qaPromptParts (some bc) [] question) := by
  unfold answerQuestion
  rw [h]
  refine ⟨?_, ?_, ?_⟩
  · simp [sortHitsByScoreDesc, List.mergeSort_nil]
  · simp [sortHitsByScoreDesc, List.mergeSort_nil]
  · intro hbc
    simp only [qaPromptParts, pyTruthyStr, hbc, Bool.not_false, if_true]
    simp [pyOrStr, hbc]

theorem qa_degrades_on_index_failure_witness :
    ("ctx" : String).isEmpty = false
    ∧ (answerQuestion (fun _ _ _ => Except.error ("down")) (fun _ => ("the answer"))
        ("q?") (some ("ctx")) 6 none none none).sources = []
    ∧ ("ctx" : String) ∈ qaPromptParts (some ("ctx")) [] ("q?") := by
  have h := qa_degrades_on_index_failure (fun _ _ _ => Except.error ("down"))
    (fun _ => ("the answer")) ("q?") ("ctx") 6 none none none ("down") (by rfl)
  exact ⟨by decide, h.1, h.2.2 (by decide)⟩

/-! ## `AnswerContextService._extract_citations`
(answer_context_service.py lines 111-148)

`re.findall(r'\[(\d{1,2})\]', answer)` scans left to right; at a `[` the
greedy `\d{1,2}` first tries two digits and then one, each requiring the
closing `]`; on failure the scan advances one character, on success it resumes
after the `]`. `scanCitations` is that scanner with the captured digit strings
already converted by `int(...)` (the `x.isdigit()` re-check of line 133 is a
tautology on `\d` captures). -/

def digitVal (c : Char) : Nat := c.toNat - '0'.toNat

def scanCitationsGo : Nat → List Char → List Nat
  | 0, _ => []
  | fuel + 1, l =>
    match l with
    | [] => []
    | c :: rest =>
      if c == '[' then
        match rest with
        | [] => []
        | d1 :: rest1 =>
          if d1.isDigit then
            match rest1 with
            | [] => scanCitationsGo fuel rest
            | d2 :: rest2 =>
              if d2.isDigit then
                match rest2 with
                | ']' :: rest3 =>
                  (10 * digitVal d1 + digitVal d2) :: scanCitationsGo fuel rest3
                | _ => scanCitationsGo fuel rest
              else if d2 == ']' then digitVal d1 :: scanCitationsGo fuel rest2
              else scanCitationsGo fuel rest
          else scanCitationsGo fuel rest
      else scanCitationsGo fuel rest

/-- The scanner at its natural fuel: every step consumes at least one
character, so fuel equal to the string length never runs out. -/
def scanCitations (l : List Char) : List Nat := scanCitationsGo l.length l

/-- `_extract_citations(answer, context_parts_count)`: keep the matched
numbers `n` with `1 <= n <= count`, 0-base them, deduplicate (a Python `set`),
return them sorted — or `[0]` when none survive. -/
def extractCitations (answer : String) (count : Nat) : List Nat :=
  let nums := scanCitations answer.data
  let valid := (nums.filter (fun n => decide (1 ≤ n) && decide (n ≤ count))).map (fun n => n - 1)
  if valid.isEmpty then [0]
  else valid.toFinset.sort (· ≤ ·)

/-- C8: for `count ≥ 1`, `extract_citations` returns a nonempty, sorted,
duplicate-free list of indices below `count`; when some bracketed 1-2 digit
number `n` with `1 ≤ n ≤ count` occurs, the result is exactly the set of such
`n - 1`; otherwise (no bracket match, or only out-of-range or malformed ones)
it is `[0]`. A 3-or-more-digit bracketed number is never matched: on the
spec's example, `[2024]` with 3 context items falls back to `[0]`. The
function is total (never raises) by construction. -/
theorem extract_citations_spec (answer : String) (count : Nat) (hcount : 1 ≤ count) :
    extractCitations answer count ≠ []
    ∧ List.Sorted (· ≤ ·) (extractCitations answer count)
    ∧ (extractCitations answer count).Nodup
    ∧ (∀ x ∈ extractCitations answer count, x < count)
    ∧ (∀ x, (∃ n ∈ scanCitations answer.data, 1 ≤ n ∧ n ≤ count) →
        (x ∈ extractCitations answer count ↔
          ∃ n ∈ scanCitations answer.data, (1 ≤ n ∧ n ≤ count) ∧ x = n - 1))
    ∧ ((¬ ∃ n ∈ scanCitations answer.data, 1 ≤ n ∧ n ≤ count) →
        extractCitations answer count = [0])
    ∧ extractCitations ("revenue grew in [2024]") 3 = [0] := by
  have hmem : ∀ x, x ∈ (((scanCitations answer.data).filter
      (fun n => decide (1 ≤ n) && decide (n ≤ count))).map (fun n => n - 1)) ↔
      ∃ n ∈ scanCitations answer.data, (1 ≤ n ∧ n ≤ count) ∧ x = n - 1 := by
    intro x
    simp only [List.mem_map, List.mem_filter, Bool.and_eq_true, decide_eq_true_eq]
    constructor
    · rintro ⟨n, ⟨hn, h1, h2⟩, rfl⟩
      exact ⟨n, hn, ⟨h1, h2⟩, rfl⟩
    · rintro ⟨n, hn, ⟨h1, h2⟩, rfl⟩
      exact ⟨n, ⟨hn, h1, h2⟩, rfl⟩
  have hempty : (((scanCitations answer.data).filter
      (fun n => decide (1 ≤ n) && decide (n ≤ count))).map (fun n => n - 1)).isEmpty = true ↔
      ¬ ∃ n ∈ scanCitations answer.data, 1 ≤ n ∧ n ≤ count := by
    rw [List.isEmpty_iff, List.eq_nil_iff_forall_not_mem]
    constructor
    · intro hall ⟨n, hn, h1, h2⟩
      exact hall (n - 1) ((hmem (n - 1)).mpr ⟨n, hn, ⟨h1, h2⟩, rfl⟩)
    · intro hno a ha
      obtain ⟨n, hn, ⟨h1, h2⟩, rfl⟩ := (hmem a).mp ha
      exact hno ⟨n, hn, h1, h2⟩
  unfold extractCitations
  by_cases hE : (((scanCitations answer.data).filter
      (fun n => decide (1 ≤ n) && decide (n ≤ count))).map (fun n => n - 1)).isEmpty = true
  · rw [if_pos hE]
    refine ⟨by simp, by simp, by simp, ?_, ?_, fun _ => rfl, by rfl⟩
    · intro x hx
      simp only [List.mem_singleton] at hx
      omega
    · intro x hsome
      exact absurd hsome (hempty.mp hE)
  · rw [if_neg hE]
    have hE' : ¬ ¬ ∃ n ∈ scanCitations answer.data, 1 ≤ n ∧ n ≤ count := by
      intro hno
      exact hE (hempty.mpr hno)
    refine ⟨?_, Finset.sort_sorted _ _, Finset.sort_nodup _ _, ?_, ?_, ?_, by rfl⟩
    · obtain ⟨n, hn, h1, h2⟩ := not_not.mp hE'
      have : (n - 1) ∈ (((scanCitations answer.data).filter
          (fun n => decide (1 ≤ n) && decide (n ≤ count))).map (fun n => n - 1)).toFinset.sort (· ≤ ·) := by
        rw [Finset.mem_sort, List.mem_toFinset]
        exact (hmem (n - 1)).mpr ⟨n, hn, ⟨h1, h2⟩, rfl⟩
      exact List.ne_nil_of_mem this
    · intro x hx
      rw [Finset.mem_sort, List.mem_toFinset] at hx
      obtain ⟨n, _, ⟨h1, h2⟩, rfl⟩ := (hmem x).mp hx
      omega
    · intro x _
      rw [Finset.mem_sort, List.mem_toFinset]
      exact hmem x
    · intro hno
      exact absurd hno hE'

theorem extract_citations_spec_witness :
    (1 : Nat) ≤ 2
    ∧ extractCitations ("Answer [1] and [5].") 2 ≠ []
    ∧ (∀ x ∈ extractCitations ("Answer [1] and [5].") 2, x < 2) := by
  have h := extract_citations_spec ("Answer [1] and [5].") 2 (by decide)
  exact ⟨by decide, h.1, h.2.2.2.1⟩

/-! ## `QdrantClient.delete_document` (qdrant_client.py lines 209-241) and the
filtered search it must empty (lines 40-126)

The index state is the collection's point list. `count(..., exact=True)` with
the `documentId` must-filter is the number of matching points;
`delete(points_selector=filter)` removes exactly the matching points. `search`
applies the same must-filter semantics before ranking by similarity (the
scoring function is an arbitrary parameter). -/

structure SearchFilters where
  documentId : Option String
  source : Option String
  symbol : Option String

/-- A point satisfies a must-filter when it matches every present condition
(`FieldCondition(key=..., match=MatchValue(value=...))`). -/
def pointMatchesFilters (f : SearchFilters) (p : Point α) : Bool :=
  (match f.documentId with
   | some v => p.payload.documentId == v
   | none => true)
  && (match f.source with
      | some v => p.payload.source == v
      | none => true)
  && (match f.symbol with
      | some v => p.payload.symbol == some v
      | none => true)

/-- The `documentId` must-filter used by both `count` and `delete`. -/
def matchesDocFilter (docId : String) (p : Point α) : Bool :=
  p.payload.documentId == docId

/-- `delete_document`: the exact pre-deletion count of matching points,
paired with the post-deletion collection. -/
def deleteDocument (st : Store α) (docId : String) : Nat × Store α :=
  (st.countP (fun p => matchesDocFilter docId p),
   st.filter (fun p => !(matchesDocFilter docId p)))

/-- `search`: the top-`k` highest-scoring points among those matching the
filter. -/
def qdrantSearch (score : Point α → ℚ) (st : Store α) (topK : Nat)
    (f : SearchFilters) : List (Point α) :=
  ((st.filter (fun p => pointMatchesFilters f p)).mergeSort
      (fun a b => decide (score b ≤ score a))).take topK

/-- C9: `delete_document` returns exactly the number of points whose payload
`documentId` matches at the moment of the call, removes all of them (a
subsequent search filtered by that `documentId` returns zero hits, for every
scoring function and every `top_k`), and deleting a document with no matching
points is not an error — it returns 0. -/
theorem delete_document_correct {α : Type} (score : Point α → ℚ) (st : Store α)
    (docId : String) (topK : Nat) :
    (deleteDocument st docId).1
        = (st.filter (fun p => matchesDocFilter docId p)).length
    ∧ (∀ p ∈ (deleteDocument st docId).2, matchesDocFilter docId p = false)
    ∧ qdrantSearch score (deleteDocument st docId).2 topK
        (SearchFilters.mk (some docId) none none) = []
    ∧ ((∀ p ∈ st, matchesDocFilter docId p = false) → (deleteDocument st docId).1 = 0) := by
  refine ⟨List.countP_eq_length_filter _ _, ?_, ?_, ?_⟩
  · intro p hp
    have h2 := (List.mem_filter.mp hp).2
    simpa using h2
  · unfold qdrantSearch
    have hnil : (deleteDocument st docId).2.filter
        (fun p => pointMatchesFilters (SearchFilters.mk (some docId) none none) p) = [] := by
      rw [List.filter_eq_nil_iff]
      intro p hp
      have h2 := (List.mem_filter.mp hp).2
      simp only [Bool.not_eq_true'] at h2
      simp [pointMatchesFilters, matchesDocFilter] at h2 ⊢
      exact h2
    rw [hnil, List.mergeSort_nil, List.take_nil]
  · intro hall
    show st.countP (fun p => matchesDocFilter docId p) = 0
    rw [List.countP_eq_length_filter]
    have : st.filter (fun p => matchesDocFilter docId p) = [] := by
      rw [List.filter_eq_nil_iff]
      intro a ha
      simp [hall a ha]
    rw [this]
    rfl

def c9store : Store Nat :=
  [mkPoint ("kept-doc") ("analysis_report") c1meta (fun _ => 0)
    (ChunkData.mk 0 0 [] ("body".data))]

theorem delete_document_correct_witness :
    (∀ p ∈ c9store, matchesDocFilter ("gone-doc") p = false)
    ∧ (deleteDocument c9store ("gone-doc")).1 = 0
    ∧ qdrantSearch (fun _ => (0 : ℚ)) (deleteDocument c9store ("gone-doc")).2 5
        (SearchFilters.mk (some ("gone-doc")) none none) = [] := by
  have h := delete_document_correct (fun _ => (0 : ℚ)) c9store ("gone-doc") 5
  exact ⟨by decide, h.2.2.2 (by decide), h.2.2.1⟩

/-! ## `AnswerContextService.answer_question` (lines 25-83) and its route
(api/routes/answer_context.py lines 47-89) -/

inductive CtxError where
  | valueError : String → CtxError
  | llmError : String → CtxError

structure CtxPart where
  source_type : String
  source_id : String
  title : String
  url : Option String
  excerpt : String

structure CtxAnswer where
  answer : String
  used_sources : List Nat

def ctxSeparatorLine : String := String.mk (List.replicate 50 '-')

/-- `_build_numbered_context` (lines 85-109). -/
def buildNumberedContext (parts : List CtxPart) : String :=
  String.join (parts.enum.map (fun pe =>
    "\n[" ++ toString (pe.1 + 1) ++ "] " ++ pe.2.title ++ "\n"
    ++ "Source: " ++ pe.2.source_type ++ "\n"
    ++ (if pyTruthyStr pe.2.url then "URL: " ++ pe.2.url.getD ("") ++ "\n" else "")
    ++ "Content: " ++ pe.2.excerpt ++ "\n"
    ++ ctxSeparatorLine ++ "\n"))

def ctxSystemPrompt : String :=
  "You are a financial analysis assistant.\nAnswer questions based ONLY on the provided context.\nWhen referencing information, cite sources using EXACTLY this format: [1], [2], [3], etc.\n- Use square brackets with single number only\n- Separate multiple citations: [1] [2] (not [1,2] or [1-2])\n- ALWAYS cite at least one source for factual claims\n- Place citations at the end of sentences\n- Do NOT use brackets for years like [2024] or [999]"

def ctxUserPrompt (contextText question : String) : String :=
  "Context:\n" ++ contextText ++ "\n\nQuestion: " ++ question
  ++ "\n\nPlease answer the question and cite sources using [1], [2] notation."

/-- `answer_question`: empty `context_parts` raises `ValueError` (line 41)
before the context string, the prompts, the LLM call, or citation extraction
are reached; an LLM failure is re-raised; otherwise the answer is returned
with the extracted citations. -/
def answerWithContext (llm : String → String → Except String String)
    (question : String) (parts : List CtxPart) : Except CtxError CtxAnswer :=
  if parts.isEmpty then .error (CtxError.valueError ("Context parts cannot be empty"))
  else
    match llm ctxSystemPrompt (ctxUserPrompt (buildNumberedContext parts) question) with
    | .error e => .error (CtxError.llmError e)
    | .ok answer => .ok (CtxAnswer.mk answer (extractCitations answer parts.length))

/-- The route's status mapping (lines 83-89): `ValueError` becomes HTTP 400,
any other exception 500, success 200. -/
def routeAnswerContextStatus (llm : String → String → Except String String)
    (question : String) (parts : List CtxPart) : Nat :=
  match answerWithContext llm question parts with
  | .ok _ => 200
  | .error (CtxError.valueError _) => 400
  | .error (CtxError.llmError _) => 500

/-- C10: calling the answer-with-context operation with an empty
`context_parts` list raises `ValueError` before any LLM call (the outcome is
identical for every LLM, i.e. independent of it — generation and citation
extraction are never reached), and the route surfaces it as a client error
(HTTP 400). -/
theorem answer_context_empty_parts_rejected
    (llm₁ llm₂ : String → String → Except String String) (q : String) :
    answerWithContext llm₁ q []
        = .error (CtxError.valueError ("Context parts cannot be empty"))
    ∧ answerWithContext llm₁ q [] = answerWithContext llm₂ q []
    ∧ routeAnswerContextStatus llm₁ q [] = 400 := by
  exact ⟨rfl, rfl, rfl⟩

end RagSpec
